import Mathlib

/-!
Verification development for the dreamsurf procedural-generation pipeline.

The definitions below are shallow embeddings of the Rust sources:
machine floats are modelled as exact rationals where the code only uses
field operations, `floor`, `round`, `min`/`max` and comparisons, and as
real numbers where the code uses transcendental functions
(`sin`, `cos`, `atan2`, `asin`, `sqrt`); `u8`/`u32` become `Nat`;
fallible code returns `Except`/`Option`; Bevy entities are modelled by
numeric ids and the deferred `Commands` mutations by explicit command
lists.  Network calls are modelled by oracles: a list of successive
responses the external service would return.
-/

/- ===== Images (generate_sky.rs) ===== -/

/-- A decoded RGBA raster: `pixel x y c` is channel `c` (0..3) of the pixel
at column `x`, row `y`, each channel in `0..=255`. -/
structure RgbaImage where
  width : Nat
  height : Nat
  pixel : Nat → Nat → Fin 4 → Nat

/-- `(width / 2).max(1)` from `convert_to_ktx2` (integer division). -/
def target_sky_height (width : Nat) : Nat := max (width / 2) 1

/-- `imageops::crop(&mut image, 0, 0, width, target_height)`: retain the
rows `0..h` (the top of the image), full width, pixels unchanged. -/
def crop_top (img : RgbaImage) (h : Nat) : RgbaImage :=
  { width := img.width, height := min h img.height, pixel := img.pixel }

/-- The aspect-enforcement step of `convert_to_ktx2` (lines 19-39): if the
decoded image is taller than `(width / 2).max(1)` it is cropped from the
top down to that height; otherwise (shorter, with a warning, or exactly
right) it is left unchanged. -/
def enforce_sky_aspect (img : RgbaImage) : RgbaImage :=
  if img.height > target_sky_height img.width then
    crop_top img (target_sky_height img.width)
  else img

/-- The shape of the `Ktx2Texture` container created by `convert_to_ktx2`. -/
structure CubemapLayout where
  faces : Nat
  faceWidth : Nat
  faceHeight : Nat
deriving DecidableEq

/-- The container layout produced by `convert_to_ktx2`:
`Ktx2Texture::create(face_size, face_size, 1, 1, 6, 1, ...)` with
`face_size = height` of the post-crop image. -/
def convert_to_ktx2_layout (img : RgbaImage) : CubemapLayout :=
  let cropped := enforce_sky_aspect img
  { faces := 6, faceWidth := cropped.height, faceHeight := cropped.height }

/- ===== Bilinear sampling (generate_sky.rs, sample_bilinear) ===== -/

/-- `u * (width - 1.0)`: the continuous pixel coordinate used by
`sample_bilinear`. -/
def pixel_coord (t : ℚ) (dim : Nat) : ℚ := t * ((dim : ℚ) - 1)

/-- `x0 = x.floor() as u32` (a float-to-`u32` cast saturates at 0 for
negative values, as does `Int.toNat`). -/
def bilinear_lo (t : ℚ) (dim : Nat) : Nat := (Int.floor (pixel_coord t dim)).toNat

/-- `x1 = (x0 + 1).min((width - 1.0) as u32)`: edge-clamped neighbor. -/
def bilinear_hi (t : ℚ) (dim : Nat) : Nat := min (bilinear_lo t dim + 1) (dim - 1)

/-- `fx = x - x0 as f32`. -/
def bilinear_frac (t : ℚ) (dim : Nat) : ℚ := pixel_coord t dim - (bilinear_lo t dim : ℚ)

/-- `.round().clamp(0.0, 255.0) as u8`: round, clamp into the 8-bit range,
cast to an unsigned byte. -/
def round_clamp_u8 (q : ℚ) : Nat := (min 255 (max 0 (round q))).toNat

/-- The per-channel blend of `sample_bilinear`:
`top = p00*(1-fx) + p10*fx`, `bottom = p01*(1-fx) + p11*fx`,
result `top*(1-fy) + bottom*fy`. -/
def bilinear_blend (p00 p10 p01 p11 fx fy : ℚ) : ℚ :=
  let top := p00 * (1 - fx) + p10 * fx
  let bottom := p01 * (1 - fx) + p11 * fx
  top * (1 - fy) + bottom * fy

/-- `sample_bilinear(image, u, v, width, height)`: four neighboring taps at
the edge-clamped integer coordinates around `(u*(w-1), v*(h-1))`, blended
per channel and rounded/clamped to `0..=255`. -/
def sample_bilinear (img : RgbaImage) (u v : ℚ) : Fin 4 → Nat := fun c =>
  let x0 := bilinear_lo u img.width
  let y0 := bilinear_lo v img.height
  let x1 := bilinear_hi u img.width
  let y1 := bilinear_hi v img.height
  let fx := bilinear_frac u img.width
  let fy := bilinear_frac v img.height
  round_clamp_u8 (bilinear_blend
    (img.pixel x0 y0 c) (img.pixel x1 y0 c) (img.pixel x0 y1 c) (img.pixel x1 y1 c) fx fy)

/-- The specification's reading of the same sampler: a standard four-tap
weighted blend `Σ w_ij * p_ij` with weights `(1-fx)(1-fy)`, `fx(1-fy)`,
`(1-fx)fy`, `fx*fy` over the same edge-clamped neighbors, rounded and
clamped to the 8-bit channel range. -/
def bilinear_four_tap_spec (img : RgbaImage) (u v : ℚ) : Fin 4 → Nat := fun c =>
  let x0 := bilinear_lo u img.width
  let y0 := bilinear_lo v img.height
  let x1 := bilinear_hi u img.width
  let y1 := bilinear_hi v img.height
  let fx := bilinear_frac u img.width
  let fy := bilinear_frac v img.height
  round_clamp_u8 (
    (1 - fx) * (1 - fy) * (img.pixel x0 y0 c) + fx * (1 - fy) * (img.pixel x1 y0 c)
      + (1 - fx) * fy * (img.pixel x0 y1 c) + fx * fy * (img.pixel x1 y1 c))

/- ===== Cubemap direction and equirectangular projection ===== -/

/-- A 3-vector over the reals (modelling `bevy::math::Vec3`). -/
structure Vec3r where
  x : ℝ
  y : ℝ
  z : ℝ

/-- Euclidean length of a `Vec3`. -/
noncomputable def vec_length (v : Vec3r) : ℝ := Real.sqrt (v.x ^ 2 + v.y ^ 2 + v.z ^ 2)

/-- `Vec3::normalize`: divide each component by the length. -/
noncomputable def vec_normalize (v : Vec3r) : Vec3r :=
  { x := v.x / vec_length v, y := v.y / vec_length v, z := v.z / vec_length v }

/-- `let a = 2.0 * (x as f32 + 0.5) / size as f32 - 1.0` from
`cubemap_direction`: the pixel-centered normalized face coordinate. -/
noncomputable def face_coord (p size : Nat) : ℝ := 2 * ((p : ℝ) + 0.5) / (size : ℝ) - 1

/-- `f32::atan2(self = y, other = x)`: the angle of the point `(x, y)`,
in `(-π, π]`; `Complex.arg` has exactly this behavior on `⟨x, y⟩`. -/
noncomputable def atan2r (y x : ℝ) : ℝ := Complex.arg ⟨x, y⟩

/-- `cubemap_direction(face, x, y, size)`: per-face basis vector from the
pixel-centered coordinates `a`, `b`, then normalized. -/
noncomputable def cubemap_direction (face x y size : Nat) : Vec3r :=
  let a := face_coord x size
  let b := face_coord y size
  let dir : Vec3r :=
    match face with
    | 0 => ⟨1, -b, -a⟩
    | 1 => ⟨-1, -b, a⟩
    | 2 => ⟨a, 1, b⟩
    | 3 => ⟨a, -1, -b⟩
    | 4 => ⟨a, -b, 1⟩
    | 5 => ⟨-a, -b, -1⟩
    | _ => ⟨0, 0, 0⟩
  vec_normalize dir

/-- The UV computation of `sample_equirectangular`:
`u = 0.5 + atan2(dz, dx) / (2π)` wrapped with `rem_euclid(1.0)`
(which is `x - ⌊x⌋` for modulus 1), and
`v = 0.5 - asin(dy) / π` clamped to `[0, 1]`. -/
noncomputable def sample_equirectangular_uv (dx dy dz : ℝ) : ℝ × ℝ :=
  let u := 0.5 + atan2r dz dx / (2 * Real.pi)
  let v := 0.5 - Real.arcsin dy / Real.pi
  (Int.fract u, max 0 (min v 1))

/-- The specification's per-face basis: `+X: (1,-v,-u)`, `-X: (-1,-v,u)`,
`+Y: (u,1,v)`, `-Y: (u,-1,-v)`, `+Z: (u,-v,1)`, `-Z: (-u,-v,-1)` with the
faces indexed 0..5 in that order. -/
noncomputable def spec_face_basis (face : Nat) (u v : ℝ) : Vec3r :=
  match face with
  | 0 => ⟨1, -v, -u⟩
  | 1 => ⟨-1, -v, u⟩
  | 2 => ⟨u, 1, v⟩
  | 3 => ⟨u, -1, -v⟩
  | 4 => ⟨u, -v, 1⟩
  | 5 => ⟨-u, -v, -1⟩
  | _ => ⟨0, 0, 0⟩

/-- The specification's direction map: normalization of the per-face basis
vector at `u = 2(x+0.5)/N - 1`, `v = 2(y+0.5)/N - 1`. -/
noncomputable def cubemap_direction_spec (face x y size : Nat) : Vec3r :=
  let u := 2 * ((x : ℝ) + 0.5) / (size : ℝ) - 1
  let v := 2 * ((y : ℝ) + 0.5) / (size : ℝ) - 1
  vec_normalize (spec_face_basis face u v)

/-- The specification's equirectangular projection of a direction:
`u = 0.5 + atan2(dz,dx)/(2π)` wrapped modulo 1 (subtract the floor) and
`v = 0.5 - asin(dy)/π` clamped to `[0, 1]`. -/
noncomputable def equirect_uv_spec (dx dy dz : ℝ) : ℝ × ℝ :=
  let u := 0.5 + atan2r dz dx / (2 * Real.pi)
  let v := 0.5 - Real.arcsin dy / Real.pi
  (u - Int.floor u, max 0 (min v 1))

/- ===== Terrain height query (spec-modelled) ===== -/

/-- Modelled from the spec: the fixed `N×N` heightfield resolution of the
Terrain Synthesizer (spec 4.4, "`N` fixed, e.g. 200").  The synthesizer
itself (`sample_terrain_height` and the heightfield mesh/collider builder)
is called from `predicted_spawn_location` but its definition is not among
the provided sources, so it is modelled here from the spec. -/
def TERRAIN_GRID_SIZE : Nat := 200

/-- Modelled from the spec: the fixed world-units-per-cell spacing of the
heightfield grid (spec 3, "a scale factor (world units per cell)"). -/
def TERRAIN_CELL_SPACING : ℝ := 1

/-- Modelled from the spec: total world extent of the terrain, so that grid
index `i` maps to world coordinate `i * spacing - extent / 2`
("times a fixed cell spacing minus half the total extent"). -/
noncomputable def TERRAIN_EXTENT : ℝ := ((TERRAIN_GRID_SIZE - 1 : Nat) : ℝ) * TERRAIN_CELL_SPACING

/-- Clamp a real into `[0, 1]`. -/
noncomputable def clamp01r (t : ℝ) : ℝ := max 0 (min t 1)

/-- Modelled from the spec: the underlying height formula, a sum of three
sinusoidal components over normalized coordinates in `[0,1]`, with distinct
frequency and amplitude constants (large rolling hills + medium hills +
fine variation), seedless and deterministic (spec 4.4). -/
noncomputable def terrain_height_formula (nx nz : ℝ) : ℝ :=
  2.5 * Real.sin (nx * (4 * Real.pi)) * Real.cos (nz * (4 * Real.pi))
    + 1.2 * Real.sin (nx * (10 * Real.pi)) * Real.cos (nz * (10 * Real.pi))
    + 0.4 * Real.sin (nx * (26 * Real.pi)) * Real.cos (nz * (26 * Real.pi))

/-- Modelled from the spec: the heightfield sample at grid index `(x, z)`,
the height formula evaluated at the normalized grid coordinates
`x/(N-1)`, `z/(N-1)`. -/
noncomputable def terrain_height_sample (x z : Nat) : ℝ :=
  terrain_height_formula ((x : ℝ) / ((TERRAIN_GRID_SIZE : ℝ) - 1))
    ((z : ℝ) / ((TERRAIN_GRID_SIZE : ℝ) - 1))

/-- Modelled from the spec: the world coordinate of grid index `i`
("world positions from `(x,z)` grid index times a fixed cell spacing minus
half the total extent"). -/
noncomputable def grid_world_coord (i : Nat) : ℝ :=
  (i : ℝ) * TERRAIN_CELL_SPACING - TERRAIN_EXTENT / 2

/-- Modelled from the spec: the render mesh's vertex height at grid
`(x, z)` is taken from the same heightfield sample set (spec 3,
"mesh and collider must be derived from the *same* sample set"). -/
noncomputable def terrain_mesh_vertex_height (x z : Nat) : ℝ := terrain_height_sample x z

/-- Modelled from the spec: the physics heightfield collider's sample at
grid `(x, z)`, derived from the same sample set as the mesh. -/
noncomputable def terrain_collider_height (x z : Nat) : ℝ := terrain_height_sample x z

/-- Modelled from the spec: `sample_terrain_height(world_x, world_z)`
(the `height_at` query used by `predicted_spawn_location`), which
normalizes world coordinates back into `[0,1]`, clamps, and evaluates the
same height formula (spec 4.4). -/
noncomputable def sample_terrain_height (wx wz : ℝ) : ℝ :=
  terrain_height_formula (clamp01r ((wx + TERRAIN_EXTENT / 2) / TERRAIN_EXTENT))
    (clamp01r ((wz + TERRAIN_EXTENT / 2) / TERRAIN_EXTENT))

/- ===== Loading-screen supervisor (procedural_loading.rs) ===== -/

/-- `enum GenerationStatus<T> { Pending, InProgress, Succeeded(T), Failed(String) }`. -/
inductive GenerationStatus (T : Type) where
  | pending
  | inProgress
  | succeeded (value : T)
  | failed (reason : String)

/-- `GeneratedGround { material, texture }`, asset handles modelled by ids. -/
structure GeneratedGround where
  material : Nat
  texture : Nat

/-- `GeneratedSky { texture }`. -/
structure GeneratedSky where
  texture : Nat

/-- `GenerationProgress { ground, sky }`. -/
structure GenerationProgress where
  ground : GenerationStatus GeneratedGround
  sky : GenerationStatus GeneratedSky

/-- `bevy::asset::LoadState`. -/
inductive LoadStateModel where
  | notLoaded
  | loading
  | loaded
  | failedLoad (err : String)
deriving DecidableEq

/-- The asset handles of `ProceduralLevelAssets` consulted by
`advance_to_procedural_gameplay_screen`, as ids. -/
structure ProceduralLevelAssetsModel where
  music : Nat
  env_map_specular : Nat
  env_map_diffuse : Nat

/-- The screens `advance_to_procedural_gameplay_screen` can target. -/
inductive ScreenModel where
  | title
  | proceduralLoading
  | proceduralGameplay
deriving DecidableEq

/-- The menus `advance_to_procedural_gameplay_screen` can target. -/
inductive MenuModel where
  | main
  | noneOpen
deriving DecidableEq

/-- The `NextState` writes performed in one run of the system: `none` means
the state was not set this frame. -/
structure AdvanceDecision where
  nextScreen : Option ScreenModel
  nextMenu : Option MenuModel
deriving DecidableEq

/-- The six tracked load states, in the order the source builds `states`. -/
def tracked_load_states (assets : ProceduralLevelAssetsModel) (ground : GeneratedGround)
    (sky : GeneratedSky) (getLoadState : Nat → Option LoadStateModel) :
    List (Option LoadStateModel) :=
  [getLoadState assets.music, getLoadState assets.env_map_specular,
    getLoadState assets.env_map_diffuse, getLoadState ground.material,
    getLoadState ground.texture, getLoadState sky.texture]

/-- `matches!(state, Some(LoadState::Failed(_)))`. -/
def load_state_is_failed : Option LoadStateModel → Bool
  | some (.failedLoad _) => true
  | _ => false

/-- `matches!(state, Some(LoadState::Loaded)) || state.is_none()`. -/
def load_state_is_loaded_or_absent : Option LoadStateModel → Bool
  | some .loaded => true
  | none => true
  | _ => false

/-- `advance_to_procedural_gameplay_screen`: on any `Failed` kind go back to
the title screen and main menu; with both kinds `Succeeded` and the assets
resource present, go back to title on any failed asset load, advance to
procedural gameplay when every tracked load state is `Loaded` or absent,
and otherwise do nothing. -/
def advance_to_procedural_gameplay_screen (progress : GenerationProgress)
    (proceduralAssets : Option ProceduralLevelAssetsModel)
    (getLoadState : Nat → Option LoadStateModel) : AdvanceDecision :=
  match progress.ground, progress.sky with
  | .failed _, _ => ⟨some .title, some .main⟩
  | _, .failed _ => ⟨some .title, some .main⟩
  | .succeeded ground, .succeeded sky =>
    match proceduralAssets with
    | some assets =>
      let states := tracked_load_states assets ground sky getLoadState
      if states.any load_state_is_failed then
        ⟨some .title, some .main⟩
      else if states.all load_state_is_loaded_or_absent then
        ⟨some .proceduralGameplay, none⟩
      else ⟨none, none⟩
    | none => ⟨none, none⟩
  | _, _ => ⟨none, none⟩

/-- `enum GenerationKind { Ground, Sky }`. -/
inductive GenerationKindModel where
  | ground
  | sky
deriving DecidableEq

/-- A `GenerationTask` component instance: the entity id carrying it and
its kind (the task handle itself is polled through an oracle by id). -/
structure GenerationTaskModel where
  id : Nat
  kind : GenerationKindModel
deriving DecidableEq

/-- A deferred `Commands` mutation of the loading-screen world. -/
inductive WorldCmd where
  | despawn (id : Nat)
  | spawnTask (t : GenerationTaskModel)
deriving DecidableEq

/-- The command sequence queued by `start_generation_tasks`: despawn every
existing `GenerationTask` entity, then spawn one ground task and one sky
task (with fresh entity ids supplied by the world). -/
def start_generation_tasks_cmds (existing : List GenerationTaskModel)
    (groundId skyId : Nat) : List WorldCmd :=
  existing.map (fun e => .despawn e.id)
    ++ [.spawnTask ⟨groundId, .ground⟩, .spawnTask ⟨skyId, .sky⟩]

/-- Apply one deferred command to the set of task entities. -/
def apply_world_cmd (world : List GenerationTaskModel) : WorldCmd → List GenerationTaskModel
  | .despawn i => world.filter (fun t => t.id ≠ i)
  | .spawnTask t => world ++ [t]

/-- Apply a command queue left to right. -/
def apply_world_cmds (world : List GenerationTaskModel) (cmds : List WorldCmd) :
    List GenerationTaskModel :=
  cmds.foldl apply_world_cmd world

/-- The task-entity set after `start_generation_tasks` runs on `existing`. -/
def start_generation_tasks (existing : List GenerationTaskModel) (groundId skyId : Nat) :
    List GenerationTaskModel :=
  apply_world_cmds existing (start_generation_tasks_cmds existing groundId skyId)

/-- The status updates produced by one run of `monitor_generation_tasks`:
for each live task entity, a non-blocking poll; every completed task
yields exactly one `(entity, kind, result)` update (the entity is
despawned and the per-kind status set from the result).  Only entities
present in `tasks` are ever polled. -/
def monitor_generation_tasks_updates (tasks : List GenerationTaskModel)
    (poll : Nat → Option (Except String String)) :
    List (Nat × GenerationKindModel × Except String String) :=
  tasks.filterMap (fun t => (poll t.id).map (fun r => (t.id, t.kind, r)))

/- ===== Meshy pipeline (generate_model.rs) ===== -/

/-- The fields of a Meshy task-status JSON payload that
`poll_task_until_finished` and `extract_glb_url` read. -/
structure TaskStatusPayload where
  status : String
  failure_reason : Option String
  message : Option String
  glbUrl : Option String
deriving DecidableEq

/-- `payload.get("failure_reason").or_else(|| payload.get("message"))
.and_then(as_str).unwrap_or("Meshy task failed for unspecified reason")`. -/
def failure_reason_of (p : TaskStatusPayload) : String :=
  match p.failure_reason with
  | some r => r
  | none =>
    match p.message with
    | some m => m
    | none => "Meshy task failed for unspecified reason"

/-- Observable stages of the `generate_prop` pipeline, in execution order. -/
inductive MeshyEvent where
  | submitPreview (prompt : String)
  | pollStatus (taskId : String) (status : String)
  | waitSeconds (n : Nat)
  | submitRefine (previewTaskId : String)
  | download (url : String)
deriving DecidableEq

/-- `poll_task_until_finished(client, task_id)` against the oracle list of
successive status responses: each iteration issues one status poll;
`SUCCEEDED` returns the payload, `FAILED` returns the bail-out error
`"Meshy task {task_id} failed: {reason}"`, and any other status sleeps for
the fixed 5-second `POLL_INTERVAL` and re-polls.  An exhausted oracle
(`none`) models a loop that is still polling. -/
def poll_task_until_finished (taskId : String) :
    List TaskStatusPayload → List MeshyEvent × Option (Except String TaskStatusPayload)
  | [] => ([], none)
  | p :: rest =>
    if p.status = "SUCCEEDED" then
      ([.pollStatus taskId p.status], some (.ok p))
    else if p.status = "FAILED" then
      ([.pollStatus taskId p.status],
        some (.error ("Meshy task " ++ taskId ++ " failed: " ++ failure_reason_of p)))
    else
      let next := poll_task_until_finished taskId rest
      (.pollStatus taskId p.status :: .waitSeconds 5 :: next.1, next.2)

/-- A status payload that is neither `SUCCEEDED` nor `FAILED`, i.e. one the
poll loop treats as still running. -/
def nonterminal_status (p : TaskStatusPayload) : Prop :=
  p.status ≠ "SUCCEEDED" ∧ p.status ≠ "FAILED"

/-- The events of one non-terminal polling stretch: for each observed
non-terminal status, one status poll followed by the fixed 5-second wait. -/
def poll_events (taskId : String) (qs : List TaskStatusPayload) : List MeshyEvent :=
  (qs.map (fun q => [MeshyEvent.pollStatus taskId q.status, MeshyEvent.waitSeconds 5])).flatten

/-- `GeneratedModelPaths { preview_path, refined_path }`. -/
structure GeneratedModelPaths where
  preview_path : String
  refined_path : String
deriving DecidableEq

/-- The external Meshy service as an oracle: the task ids it assigns and
the successive status responses for each task. -/
structure MeshyServerModel where
  previewTaskId : String
  previewResponses : List TaskStatusPayload
  refineTaskId : String
  refineResponses : List TaskStatusPayload

/-- `const GENERATED_MODEL_DIR`. -/
def GENERATED_MODEL_DIR : String := "models/generated"

/-- `const PREVIEW_FILENAME`. -/
def PREVIEW_FILENAME : String := "preview.glb"

/-- `const REFINED_FILENAME`. -/
def REFINED_FILENAME : String := "refined.glb"

/-- `generate_prop(prompt)` against the service oracle, returning the event
trace and the overall result (`none` models a pipeline still blocked in a
poll loop).  Mirrors the source order: create the preview task, poll it to
a terminal status, extract and download the preview glb, create the refine
task, poll it, extract and download the refined glb, then return the two
relative paths under the fresh `generationId`. -/
def generate_prop (prompt : String) (server : MeshyServerModel) (generationId : String) :
    List MeshyEvent × Option (Except String GeneratedModelPaths) :=
  let pres := poll_task_until_finished server.previewTaskId server.previewResponses
  let evs1 := MeshyEvent.submitPreview prompt :: pres.1
  match pres.2 with
  | none => (evs1, none)
  | some (.error e) => (evs1, some (.error e))
  | some (.ok preview) =>
    match preview.glbUrl with
    | none => (evs1, some (.error "Meshy preview response missing glb URL"))
    | some previewUrl =>
      let evs2 := evs1 ++ [.download previewUrl]
      let rres := poll_task_until_finished server.refineTaskId server.refineResponses
      let evs3 := evs2 ++ MeshyEvent.submitRefine server.previewTaskId :: rres.1
      match rres.2 with
      | none => (evs3, none)
      | some (.error e) => (evs3, some (.error e))
      | some (.ok refined) =>
        match refined.glbUrl with
        | none => (evs3, some (.error "Meshy refine response missing glb URL"))
        | some refinedUrl =>
          (evs3 ++ [.download refinedUrl],
            some (.ok
              { preview_path :=
                  GENERATED_MODEL_DIR ++ "/" ++ generationId ++ "/" ++ PREVIEW_FILENAME,
                refined_path :=
                  GENERATED_MODEL_DIR ++ "/" ++ generationId ++ "/" ++ REFINED_FILENAME }))

/-- The claim's ordering property on a trace: every download happens after
every refine submission. -/
def downloads_follow_refine_submit (t : List MeshyEvent) : Prop :=
  ∀ i j u pid, t.get? i = some (.download u) → t.get? j = some (.submitRefine pid) → j < i

/- ===== In-gameplay prop monitor (procedural_gameplay.rs) ===== -/

/-- A `ModelGenerationTask` component: its entity id, the placeholder
effect entity it owns, and the submitted prompt. -/
structure ModelGenerationTask where
  entity : Nat
  placeholder : Nat
  prompt : String
deriving DecidableEq

/-- Deferred mutations of the gameplay world issued by
`monitor_model_generation_tasks`. -/
inductive GameplayCmd where
  | despawnEntity (id : Nat)
  | logGenerationFailure (prompt : String)
  | spawnGeneratedModel (refinedPath : String)
deriving DecidableEq

/-- One run of `monitor_model_generation_tasks`: each task entity is polled
(`none` = still running, no mutation); a completed task despawns its
placeholder and itself, then either spawns the generated prop from the
refined path (success) or logs the failure (error). -/
def monitor_model_generation_tasks
    (tasks : List (ModelGenerationTask × Option (Except String GeneratedModelPaths))) :
    List GameplayCmd :=
  (tasks.map (fun tr =>
    match tr.2 with
    | none => []
    | some result =>
      [.despawnEntity tr.1.placeholder, .despawnEntity tr.1.entity]
        ++ match result with
           | .ok paths => [.spawnGeneratedModel paths.refined_path]
           | .error _ => [.logGenerationFailure tr.1.prompt])).flatten

/- ===== Prop height adjustment (procedural_gameplay.rs) ===== -/

/-- A 3-vector over the rationals (exact model of `Vec3` where only affine
arithmetic and comparisons occur). -/
structure Vec3q where
  x : ℚ
  y : ℚ
  z : ℚ
deriving DecidableEq

/-- A descendant entity's renderable mesh data: its `GlobalTransform` as an
abstract point map (`transform_point`), and the local AABB computed by
`compute_aabb` (center and half extents). -/
structure MeshGeometry where
  transformPoint : Vec3q → Vec3q
  aabbCenter : Vec3q
  aabbHalfExtents : Vec3q

/-- The descendant hierarchy below a prop root: each node optionally
carries mesh geometry and has child nodes. -/
inductive PropNode where
  | node (mesh : Option MeshGeometry) (children : List PropNode)

/-- All mesh geometries in a node's subtree, the node itself included.
The source walks the hierarchy breadth-first with a `VecDeque`; the
traversal order is immaterial because only the minimum corner height is
consumed. -/
def collect_meshes : PropNode → List MeshGeometry
  | .node m cs => m.toList ++ (cs.attach.map (fun c => collect_meshes c.val)).flatten
decreasing_by
  simp only [PropNode.node.sizeOf_spec]
  have h := List.sizeOf_lt_of_mem c.property
  omega

/-- The corner sign values `[-1.0, 1.0]` iterated by the source. -/
def corner_signs : List ℚ := [-1, 1]

/-- The world-space `y` of the eight corners of a mesh's local AABB:
`world = global_transform.transform_point(center + (sx*hx, sy*hy, sz*hz))`. -/
def mesh_corner_ys (g : MeshGeometry) : List ℚ :=
  corner_signs.flatMap (fun sx =>
    corner_signs.flatMap (fun sy =>
      corner_signs.map (fun sz =>
        (g.transformPoint
          ⟨g.aabbCenter.x + sx * g.aabbHalfExtents.x,
           g.aabbCenter.y + sy * g.aabbHalfExtents.y,
           g.aabbCenter.z + sz * g.aabbHalfExtents.z⟩).y)))

/-- The source's incremental `min_y` accumulation over corner heights:
`min_y = Some(match min_y { Some(c) => c.min(world.y), None => world.y })`. -/
def min_y_fold (acc : Option ℚ) (y : ℚ) : Option ℚ :=
  some (match acc with
    | some c => min c y
    | none => y)

/-- The minimum world-space corner `y` over a list of mesh geometries,
`none` when no geometry was found. -/
def scan_min_y (gs : List MeshGeometry) : Option ℚ :=
  gs.foldl (fun acc g => (mesh_corner_ys g).foldl min_y_fold acc) none

/-- The minimum world-space corner `y` over a root's full descendant
hierarchy. -/
def descendant_min_y (children : List PropNode) : Option ℚ :=
  scan_min_y ((children.map collect_meshes).flatten)

/-- `GeneratedPropRoot { ground_height, adjusted }`. -/
structure GeneratedPropRoot where
  ground_height : ℚ
  adjusted : Bool
deriving DecidableEq

/-- The mutable state of a spliced prop root touched by
`adjust_generated_prop_height`: its `Transform` translation `y` and its
`GeneratedPropRoot` component. -/
structure PropRootState where
  translationY : ℚ
  prop : GeneratedPropRoot
deriving DecidableEq

/-- One run of `adjust_generated_prop_height` on a single root: an already
`adjusted` root is skipped; otherwise the descendant hierarchy is scanned
for the minimum world-space corner `y`, and if one exists the root
translation is shifted by `ground_height - min_y` and `adjusted` is set. -/
def adjust_generated_prop_height (s : PropRootState) (children : List PropNode) :
    PropRootState :=
  if s.prop.adjusted then s
  else
    match descendant_min_y children with
    | some minY =>
      { translationY := s.translationY + (s.prop.ground_height - minY),
        prop := { ground_height := s.prop.ground_height, adjusted := true } }
    | none => s

/- ===== Helper lemmas ===== -/

/-- Characterization of the load-state predicate used for activation. -/
theorem load_state_ok_iff (st : Option LoadStateModel) :
    load_state_is_loaded_or_absent st = true ↔ st = some .loaded ∨ st = none := by
  cases st with
  | none => simp [load_state_is_loaded_or_absent]
  | some l => cases l <;> simp [load_state_is_loaded_or_absent]

/-- The low bilinear index stays within the image. -/
theorem bilinear_lo_le (t : ℚ) (dim : Nat) (h1 : 1 ≤ dim) (h0 : 0 ≤ t) (hle : t ≤ 1) :
    bilinear_lo t dim ≤ dim - 1 := by
  unfold bilinear_lo pixel_coord
  have hd : (0 : ℚ) ≤ (dim : ℚ) - 1 := by
    have : (1 : ℚ) ≤ (dim : ℚ) := by exact_mod_cast h1
    linarith
  have hx : t * ((dim : ℚ) - 1) ≤ (dim : ℚ) - 1 := by nlinarith
  have hcast : ((dim : ℚ) - 1) = (((dim : ℤ) - 1 : ℤ) : ℚ) := by push_cast; ring
  have hfl : Int.floor (t * ((dim : ℚ) - 1)) ≤ (dim : ℤ) - 1 := by
    calc Int.floor (t * ((dim : ℚ) - 1)) ≤ Int.floor ((dim : ℚ) - 1) := Int.floor_le_floor hx
    _ = (dim : ℤ) - 1 := by rw [hcast, Int.floor_intCast]
  omega

/-- Both bilinear indices are ordered and within the image. -/
theorem bilinear_index_bounds (t : ℚ) (dim : Nat) (h1 : 1 ≤ dim) (h0 : 0 ≤ t) (hle : t ≤ 1) :
    bilinear_lo t dim ≤ bilinear_hi t dim ∧ bilinear_hi t dim ≤ dim - 1 := by
  have hlo := bilinear_lo_le t dim h1 h0 hle
  unfold bilinear_hi
  omega

/- ===== C7 ===== -/

/-- C7: the sky transcoder enforces a 2:1 aspect before conversion: a
panorama taller than half its width is cropped from the top (rows starting
at `y = 0` retained, pixels unchanged) down to exactly `max(W/2, 1)` rows;
one shorter than half its width is left unchanged (with only a warning);
and the output container is a 6-face cubemap whose faces are all square
with side length equal to the post-crop image height. -/
theorem s2p_c7 (img : RgbaImage) :
    (img.height > img.width / 2 →
      (enforce_sky_aspect img).height = max (img.width / 2) 1 ∧
      (enforce_sky_aspect img).width = img.width ∧
      (enforce_sky_aspect img).pixel = img.pixel) ∧
    (img.height < img.width / 2 → enforce_sky_aspect img = img) ∧
    convert_to_ktx2_layout img =
      { faces := 6, faceWidth := (enforce_sky_aspect img).height,
        faceHeight := (enforce_sky_aspect img).height } := by
  refine ⟨?_, ?_, rfl⟩
  · intro h
    unfold enforce_sky_aspect crop_top target_sky_height
    by_cases hc : img.height > max (img.width / 2) 1
    · rw [if_pos hc]
      refine ⟨?_, rfl, rfl⟩
      show min (max (img.width / 2) 1) img.height = max (img.width / 2) 1
      omega
    · rw [if_neg hc]
      refine ⟨?_, rfl, rfl⟩
      show img.height = max (img.width / 2) 1
      omega
  · intro h
    have hc : ¬ img.height > target_sky_height img.width := by
      unfold target_sky_height
      omega
    unfold enforce_sky_aspect
    rw [if_neg hc]

/-- C7 witness at a concrete 4×3 image: it is cropped to 2 rows. -/
theorem s2p_c7_witness :
    (enforce_sky_aspect { width := 4, height := 3, pixel := fun _ _ _ => 0 }).height =
      max (4 / 2) 1 ∧
    (enforce_sky_aspect { width := 4, height := 3, pixel := fun _ _ _ => 0 }).width = 4 ∧
    (enforce_sky_aspect { width := 4, height := 3, pixel := fun _ _ _ => 0 }).pixel =
      (fun _ _ _ => 0) :=
  (s2p_c7 { width := 4, height := 3, pixel := fun _ _ _ => 0 }).1 (by norm_num)

/- ===== C10 ===== -/

/-- C10: for every source image with width ≥ 1 and height ≥ 1 and every
`u, v ∈ [0, 1]`, the four neighbor indices computed by `sample_bilinear`
satisfy `x0 ≤ x1 ≤ width - 1` and `y0 ≤ y1 ≤ height - 1`, so every pixel
lookup of the sampler is within the image bounds. -/
theorem s2p_c10 (w h : Nat) (u v : ℚ) (hw : 1 ≤ w) (hh : 1 ≤ h)
    (hu0 : 0 ≤ u) (hu1 : u ≤ 1) (hv0 : 0 ≤ v) (hv1 : v ≤ 1) :
    (bilinear_lo u w ≤ bilinear_hi u w ∧ bilinear_hi u w ≤ w - 1) ∧
    (bilinear_lo v h ≤ bilinear_hi v h ∧ bilinear_hi v h ≤ h - 1) :=
  ⟨bilinear_index_bounds u w hw hu0 hu1, bilinear_index_bounds v h hh hv0 hv1⟩

/-- C10 witness at `u = 1/2`, `v = 1` on a 4×3 image. -/
theorem s2p_c10_witness :
    (bilinear_lo (1 / 2) 4 ≤ bilinear_hi (1 / 2) 4 ∧ bilinear_hi (1 / 2) 4 ≤ 4 - 1) ∧
    (bilinear_lo 1 3 ≤ bilinear_hi 1 3 ∧ bilinear_hi 1 3 ≤ 3 - 1) :=
  s2p_c10 4 3 (1 / 2) 1 (by norm_num) (by norm_num) (by norm_num) (by norm_num)
    (by norm_num) (by norm_num)

/- ===== C8 ===== -/

/-- C8: cube-face sampling is pixel-centered — the face coordinate is
`2*((x+0.5)/size) - 1`, not the non-centered `2*(x/size) - 1` — and the
bilinear sample equals the standard four-tap weighted blend per channel
over the four edge-clamped neighbors, rounded and clamped to `0..=255`. -/
theorem s2p_c8 :
    (∀ p size : Nat, face_coord p size = 2 * (((p : ℝ) + 0.5) / (size : ℝ)) - 1) ∧
    face_coord 0 2 ≠ 2 * ((0 : ℝ) / 2) - 1 ∧
    ∀ (img : RgbaImage) (u v : ℚ) (c : Fin 4),
      sample_bilinear img u v c = bilinear_four_tap_spec img u v c := by
  refine ⟨?_, ?_, ?_⟩
  · intro p size
    unfold face_coord
    ring
  · unfold face_coord
    norm_num
  · intro img u v c
    unfold sample_bilinear bilinear_four_tap_spec bilinear_blend
    congr 1
    ring

/- ===== C3 ===== -/

/-- C3: for every face index below 6 and every destination pixel, the
transcoder's direction is the normalization of the spec's per-face basis
vector at the pixel-centered coordinates, and its equirectangular
projection is exactly `u = 0.5 + atan2(dz,dx)/(2π)` wrapped modulo 1 and
`v = 0.5 - asin(dy)/π` clamped to `[0, 1]`. -/
theorem s2p_c3 (face x y size : Nat) (hface : face < 6) :
    cubemap_direction face x y size = cubemap_direction_spec face x y size ∧
    ∀ dx dy dz : ℝ, sample_equirectangular_uv dx dy dz = equirect_uv_spec dx dy dz := by
  constructor
  · interval_cases face <;> rfl
  · intro dx dy dz
    rfl

/-- C3 witness at face 0, pixel (0,0), size 1. -/
theorem s2p_c3_witness :
    cubemap_direction 0 0 0 1 = cubemap_direction_spec 0 0 0 1 ∧
    sample_equirectangular_uv 0 1 0 = equirect_uv_spec 0 1 0 :=
  ⟨(s2p_c3 0 0 0 1 (by decide)).1, (s2p_c3 0 0 0 1 (by decide)).2 0 1 0⟩

/- ===== C9 ===== -/

/-- At a grid sample's world position the height query's normalization
recovers exactly the normalized grid coordinate. -/
theorem terrain_world_normalizes (i : Nat) (hi : i < TERRAIN_GRID_SIZE) :
    clamp01r ((grid_world_coord i + TERRAIN_EXTENT / 2) / TERRAIN_EXTENT) =
      (i : ℝ) / ((TERRAIN_GRID_SIZE : ℝ) - 1) := by
  have hE : TERRAIN_EXTENT = 199 := by
    norm_num [TERRAIN_EXTENT, TERRAIN_CELL_SPACING, TERRAIN_GRID_SIZE]
  have hN : ((TERRAIN_GRID_SIZE : ℝ) - 1) = 199 := by
    norm_num [TERRAIN_GRID_SIZE]
  have hi199 : (i : ℝ) ≤ 199 := by
    have : i ≤ 199 := by
      have := hi
      unfold TERRAIN_GRID_SIZE at this
      omega
    exact_mod_cast this
  have harg : (grid_world_coord i + TERRAIN_EXTENT / 2) / TERRAIN_EXTENT = (i : ℝ) / 199 := by
    unfold grid_world_coord TERRAIN_CELL_SPACING
    rw [hE]
    ring
  rw [harg, hN]
  unfold clamp01r
  have h1 : (i : ℝ) / 199 ≤ 1 := by
    apply div_le_one_of_le hi199
    norm_num
  have h0 : (0 : ℝ) ≤ (i : ℝ) / 199 := by positivity
  rw [min_eq_left h1, max_eq_right h0]

/-- C9: at every grid index `(x, z)` of the terrain, the continuous height
query `sample_terrain_height`, evaluated at that sample's world position,
agrees exactly with the terrain mesh's vertex height there, which in turn
is the collider's sample — mesh, collider, and query derive from the same
height formula and agree pointwise. -/
theorem s2p_c9 (x z : Nat) (hx : x < TERRAIN_GRID_SIZE) (hz : z < TERRAIN_GRID_SIZE) :
    sample_terrain_height (grid_world_coord x) (grid_world_coord z) =
      terrain_mesh_vertex_height x z ∧
    terrain_mesh_vertex_height x z = terrain_collider_height x z := by
  refine ⟨?_, rfl⟩
  unfold sample_terrain_height terrain_mesh_vertex_height terrain_height_sample
  rw [terrain_world_normalizes x hx, terrain_world_normalizes z hz]

/-- C9 witness at grid index (0, 0). -/
theorem s2p_c9_witness :
    sample_terrain_height (grid_world_coord 0) (grid_world_coord 0) =
      terrain_mesh_vertex_height 0 0 ∧
    terrain_mesh_vertex_height 0 0 = terrain_collider_height 0 0 :=
  s2p_c9 0 0 (by decide) (by decide)

/- ===== C1 ===== -/

/-- C1: the loading supervisor signals gameplay activation only when both
the ground and the sky status are `Succeeded` and every tracked asset
handle's load state is `Loaded` (or absent); and whenever either kind's
status is `Failed` it instead signals fallback navigation to the title
screen and the main menu. -/
theorem s2p_c1 (progress : GenerationProgress)
    (assets : Option ProceduralLevelAssetsModel)
    (getLoadState : Nat → Option LoadStateModel) :
    ((advance_to_procedural_gameplay_screen progress assets getLoadState).nextScreen =
        some .proceduralGameplay →
      ∃ a g s, assets = some a ∧ progress.ground = .succeeded g ∧
        progress.sky = .succeeded s ∧
        ∀ st ∈ tracked_load_states a g s getLoadState, st = some .loaded ∨ st = none) ∧
    (((∃ r, progress.ground = .failed r) ∨ (∃ r, progress.sky = .failed r)) →
      advance_to_procedural_gameplay_screen progress assets getLoadState =
        ⟨some .title, some .main⟩) := by
  obtain ⟨g, s⟩ := progress
  constructor
  · intro hadv
    cases g with
    | pending => cases s <;> simp [advance_to_procedural_gameplay_screen] at hadv
    | inProgress => cases s <;> simp [advance_to_procedural_gameplay_screen] at hadv
    | failed r => cases s <;> simp [advance_to_procedural_gameplay_screen] at hadv
    | succeeded gv =>
      cases s with
      | pending => simp [advance_to_procedural_gameplay_screen] at hadv
      | inProgress => simp [advance_to_procedural_gameplay_screen] at hadv
      | failed r => simp [advance_to_procedural_gameplay_screen] at hadv
      | succeeded sv =>
        cases assets with
        | none => simp [advance_to_procedural_gameplay_screen] at hadv
        | some a =>
          simp only [advance_to_procedural_gameplay_screen] at hadv
          refine ⟨a, gv, sv, rfl, rfl, rfl, ?_⟩
          split_ifs at hadv with h1 h2
          · simp at hadv
          · intro st hst
            rw [← load_state_ok_iff]
            exact List.all_eq_true.mp h2 st hst
  · rintro (⟨r, hg⟩ | ⟨r, hs⟩)
    · replace hg : g = .failed r := hg
      subst hg
      cases s <;> rfl
    · replace hs : s = .failed r := hs
      subst hs
      cases g <;> rfl

/-- C1 witness: a failed ground generation routes back to title and main
menu. -/
theorem s2p_c1_witness :
    advance_to_procedural_gameplay_screen
        { ground := .failed "boom", sky := .pending } none (fun _ => none) =
      { nextScreen := some .title, nextMenu := some .main } :=
  (s2p_c1 { ground := .failed "boom", sky := .pending } none (fun _ => none)).2
    (Or.inl ⟨"boom", rfl⟩)

/- ===== C5 ===== -/

/-- Applying a queue of despawn commands filters out every task whose id
occurs in the despawned list. -/
theorem apply_despawns (l : List GenerationTaskModel) (w : List GenerationTaskModel) :
    apply_world_cmds w (l.map (fun e => WorldCmd.despawn e.id)) =
      w.filter (fun t => l.all (fun e => t.id ≠ e.id)) := by
  induction l generalizing w with
  | nil =>
    simp [apply_world_cmds]
  | cons a l ih =>
    simp only [List.map_cons, apply_world_cmds, List.foldl_cons] at *
    rw [show apply_world_cmd w (WorldCmd.despawn a.id) =
        w.filter (fun t => t.id ≠ a.id) from rfl]
    rw [ih]
    rw [List.filter_filter]
    congr 1
    funext t
    simp only [List.all_cons]
    rw [Bool.and_comm]

/-- Despawning every id of a task list empties that list. -/
theorem despawn_all_self (existing : List GenerationTaskModel) :
    existing.filter (fun t => existing.all (fun e => t.id ≠ e.id)) = [] := by
  rw [List.filter_eq_nil_iff]
  intro t ht
  simp only [List.all_eq_true, decide_eq_true_eq, Bool.not_eq_true]
  intro hall
  exact hall t ht rfl

/-- `start_generation_tasks` leaves exactly the two freshly spawned tasks. -/
theorem start_tasks_eq (existing : List GenerationTaskModel) (gid sid : Nat) :
    start_generation_tasks existing gid sid =
      [{ id := gid, kind := .ground }, { id := sid, kind := .sky }] := by
  unfold start_generation_tasks start_generation_tasks_cmds apply_world_cmds
  rw [List.foldl_append]
  have h1 : List.foldl apply_world_cmd existing
      (existing.map (fun e => WorldCmd.despawn e.id)) = [] := by
    have h := apply_despawns existing existing
    unfold apply_world_cmds at h
    rw [h, despawn_all_self]
  rw [h1]
  rfl

/-- C5: entering the loading flow first despawns every existing
generation-task entity and then spawns exactly one new background job per
kind, so afterward exactly one task per kind exists, none of the old task
entities survives, and every update the monitor can ever produce comes
from one of the two new task entities. -/
theorem s2p_c5 (existing : List GenerationTaskModel) (groundId skyId : Nat)
    (hfresh : ∀ e ∈ existing, e.id ≠ groundId ∧ e.id ≠ skyId)
    (poll : Nat → Option (Except String String)) :
    start_generation_tasks existing groundId skyId =
      [{ id := groundId, kind := .ground }, { id := skyId, kind := .sky }] ∧
    ((start_generation_tasks existing groundId skyId).filter
        (fun t => t.kind = GenerationKindModel.ground)).length = 1 ∧
    ((start_generation_tasks existing groundId skyId).filter
        (fun t => t.kind = GenerationKindModel.sky)).length = 1 ∧
    (∀ e ∈ existing, e ∉ start_generation_tasks existing groundId skyId) ∧
    (∀ u ∈ monitor_generation_tasks_updates
        (start_generation_tasks existing groundId skyId) poll,
      u.1 = groundId ∨ u.1 = skyId) := by
  have hstart := start_tasks_eq existing groundId skyId
  refine ⟨hstart, ?_, ?_, ?_, ?_⟩
  · rw [hstart]
    rfl
  · rw [hstart]
    rfl
  · intro e he hmem
    obtain ⟨h1, h2⟩ := hfresh e he
    rw [hstart] at hmem
    rcases List.mem_cons.mp hmem with h | h
    · exact h1 (by rw [h])
    · rcases List.mem_cons.mp h with h | h
      · exact h2 (by rw [h])
      · simp at h
  · intro u hu
    rw [hstart] at hu
    unfold monitor_generation_tasks_updates at hu
    rw [List.mem_filterMap] at hu
    obtain ⟨t, ht, hft⟩ := hu
    obtain ⟨r, hr, hu⟩ := Option.map_eq_some'.mp hft
    rcases List.mem_cons.mp ht with h | h
    · left
      rw [← hu, h]
    · rcases List.mem_cons.mp h with h | h
      · right
        rw [← hu, h]
      · simp at h

/-- C5 witness: starting from one stale task of each kind. -/
theorem s2p_c5_witness :
    start_generation_tasks
        [{ id := 7, kind := .ground }, { id := 8, kind := .sky }] 0 1 =
      [{ id := 0, kind := .ground }, { id := 1, kind := .sky }] :=
  (s2p_c5 [{ id := 7, kind := .ground }, { id := 8, kind := .sky }] 0 1
    (by intro e he; rcases List.mem_cons.mp he with h | h
        · rw [h]; exact ⟨by decide, by decide⟩
        · rcases List.mem_cons.mp h with h | h
          · rw [h]; exact ⟨by decide, by decide⟩
          · simp at h)
    (fun _ => none)).1

/- ===== C2 / C4 helper lemmas ===== -/

/-- Polling through a non-terminal stretch followed by a `SUCCEEDED`
response yields one poll event and a 5-second wait per non-terminal
status, then the terminal poll, and returns the succeeded payload;
later responses are never consumed. -/
theorem poll_trace_succeeded (taskId : String) (qs rest : List TaskStatusPayload)
    (p : TaskStatusPayload) (hq : ∀ q ∈ qs, nonterminal_status q)
    (hp : p.status = "SUCCEEDED") :
    poll_task_until_finished taskId (qs ++ p :: rest) =
      (poll_events taskId qs ++ [.pollStatus taskId "SUCCEEDED"], some (.ok p)) := by
  induction qs with
  | nil =>
    simp [poll_task_until_finished, poll_events, hp]
  | cons q l ih =>
    obtain ⟨h1, h2⟩ := hq q (List.mem_cons_self q l)
    have ihh := ih (fun x hx => hq x (List.mem_cons_of_mem q hx))
    simp [poll_task_until_finished, h1, h2, poll_events, ihh]

/-- Polling through a non-terminal stretch followed by a `FAILED` response
immediately returns the bail-out error carrying the upstream reason, with
no wait after the terminal poll and later responses never consumed. -/
theorem poll_trace_failed (taskId : String) (qs rest : List TaskStatusPayload)
    (p : TaskStatusPayload) (hq : ∀ q ∈ qs, nonterminal_status q)
    (hp : p.status = "FAILED") :
    poll_task_until_finished taskId (qs ++ p :: rest) =
      (poll_events taskId qs ++ [.pollStatus taskId "FAILED"],
        some (.error ("Meshy task " ++ taskId ++ " failed: " ++ failure_reason_of p))) := by
  induction qs with
  | nil =>
    have hne : p.status ≠ "SUCCEEDED" := by
      rw [hp]
      decide
    simp [poll_task_until_finished, poll_events, hp, hne]
  | cons q l ih =>
    obtain ⟨h1, h2⟩ := hq q (List.mem_cons_self q l)
    have ihh := ih (fun x hx => hq x (List.mem_cons_of_mem q hx))
    simp [poll_task_until_finished, h1, h2, poll_events, ihh]

/- ===== C2 ===== -/

/-- C2 counterexample: on a service that succeeds both stages immediately,
the pipeline downloads the preview payload (trace index 2) before it
submits the refine task (trace index 3), so the claimed order — both
downloads only after refine submission and polling — is false. -/
theorem s2p_c2_counterexample :
    ¬ downloads_follow_refine_submit
        (generate_prop "p"
          { previewTaskId := "pt",
            previewResponses := [{ status := "SUCCEEDED", failure_reason := none, message := none, glbUrl := some "purl" }],
            refineTaskId := "rt",
            refineResponses := [{ status := "SUCCEEDED", failure_reason := none, message := none, glbUrl := some "rurl" }] } "g").1 := by
  intro h
  have h23 := h 2 3 "purl" "pt" (by rfl) (by rfl)
  omega

/-- C2 (amended): the stages occur strictly in the order submit preview,
poll preview to a terminal status, download the preview payload, submit
refine, poll refine to a terminal status, download the refined payload;
and each poll iteration that observes a non-terminal status waits the
fixed 5-second interval before re-polling (visible in `poll_events`). -/
theorem s2p_c2 (prompt generationId : String) (server : MeshyServerModel)
    (pq prest rq rrest : List TaskStatusPayload) (pp rp : TaskStatusPayload)
    (purl rurl : String)
    (hprev : server.previewResponses = pq ++ pp :: prest)
    (hpq : ∀ q ∈ pq, nonterminal_status q)
    (hpp : pp.status = "SUCCEEDED") (hpurl : pp.glbUrl = some purl)
    (href : server.refineResponses = rq ++ rp :: rrest)
    (hrq : ∀ q ∈ rq, nonterminal_status q)
    (hrp : rp.status = "SUCCEEDED") (hrurl : rp.glbUrl = some rurl) :
    generate_prop prompt server generationId =
      (MeshyEvent.submitPreview prompt ::
          (poll_events server.previewTaskId pq
            ++ [.pollStatus server.previewTaskId "SUCCEEDED"])
          ++ [.download purl]
          ++ (MeshyEvent.submitRefine server.previewTaskId ::
            (poll_events server.refineTaskId rq
              ++ [.pollStatus server.refineTaskId "SUCCEEDED"]))
          ++ [.download rurl],
        some (.ok
          { preview_path :=
              GENERATED_MODEL_DIR ++ "/" ++ generationId ++ "/" ++ PREVIEW_FILENAME,
            refined_path :=
              GENERATED_MODEL_DIR ++ "/" ++ generationId ++ "/" ++ REFINED_FILENAME })) := by
  unfold generate_prop
  rw [hprev, href, poll_trace_succeeded server.previewTaskId pq prest pp hpq hpp,
    poll_trace_succeeded server.refineTaskId rq rrest rp hrq hrp]
  simp [hpurl, hrurl]

/-- C2 witness: both polls succeed on the first response. -/
theorem s2p_c2_witness :
    generate_prop "p"
        { previewTaskId := "pt",
          previewResponses := [{ status := "SUCCEEDED", failure_reason := none, message := none, glbUrl := some "purl" }],
          refineTaskId := "rt",
          refineResponses := [{ status := "SUCCEEDED", failure_reason := none, message := none, glbUrl := some "rurl" }] } "g" =
      (MeshyEvent.submitPreview "p" ::
          (poll_events "pt" [] ++ [.pollStatus "pt" "SUCCEEDED"])
          ++ [.download "purl"]
          ++ (MeshyEvent.submitRefine "pt" ::
            (poll_events "rt" [] ++ [.pollStatus "rt" "SUCCEEDED"]))
          ++ [.download "rurl"],
        some (.ok
          { preview_path := GENERATED_MODEL_DIR ++ "/" ++ "g" ++ "/" ++ PREVIEW_FILENAME,
            refined_path := GENERATED_MODEL_DIR ++ "/" ++ "g" ++ "/" ++ REFINED_FILENAME })) :=
  s2p_c2 "p" "g"
    { previewTaskId := "pt",
      previewResponses := [{ status := "SUCCEEDED", failure_reason := none, message := none, glbUrl := some "purl" }],
      refineTaskId := "rt",
      refineResponses := [{ status := "SUCCEEDED", failure_reason := none, message := none, glbUrl := some "rurl" }] }
    [] [] [] []
    { status := "SUCCEEDED", failure_reason := none, message := none, glbUrl := some "purl" }
    { status := "SUCCEEDED", failure_reason := none, message := none, glbUrl := some "rurl" }
    "purl" "rurl" rfl (by simp) rfl rfl rfl (by simp) rfl rfl

/- ===== C4 ===== -/

/-- C4: when the service reports the terminal status `FAILED`, the polling
function immediately returns an error whose message contains the upstream
failure reason (no wait follows the terminal poll and no later response is
consumed); and when the foreground monitor observes such a failed prop
job it despawns the placeholder effect entity and the task entity, logs
the error, and spawns no prop entity. -/
theorem s2p_c4 :
    (∀ (taskId r : String) (qs rest : List TaskStatusPayload) (p : TaskStatusPayload),
      (∀ q ∈ qs, nonterminal_status q) → p.status = "FAILED" → p.failure_reason = some r →
      ∃ pre, poll_task_until_finished taskId (qs ++ p :: rest) =
        (poll_events taskId qs ++ [.pollStatus taskId "FAILED"],
          some (.error (pre ++ r)))) ∧
    ∀ (t : ModelGenerationTask) (e : String),
      monitor_model_generation_tasks [(t, some (.error e))] =
        [.despawnEntity t.placeholder, .despawnEntity t.entity,
          .logGenerationFailure t.prompt] ∧
      ∀ pth, GameplayCmd.spawnGeneratedModel pth ∉
        monitor_model_generation_tasks [(t, some (.error e))] := by
  constructor
  · intro taskId r qs rest p hq hp hr
    refine ⟨"Meshy task " ++ taskId ++ " failed: ", ?_⟩
    rw [poll_trace_failed taskId qs rest p hq hp]
    unfold failure_reason_of
    rw [hr]
  · intro t e
    constructor
    · rfl
    · intro pth
      simp [monitor_model_generation_tasks]

/-- C4 witness: a first-response failure with reason "content policy
violation" produces an error message carrying that reason. -/
theorem s2p_c4_witness :
    ∃ pre, poll_task_until_finished "tid"
        [{ status := "FAILED", failure_reason := some "content policy violation", message := none, glbUrl := none }] =
      (poll_events "tid" [] ++ [.pollStatus "tid" "FAILED"],
        some (.error (pre ++ "content policy violation"))) :=
  s2p_c4.1 "tid" "content policy violation" [] []
    { status := "FAILED", failure_reason := some "content policy violation", message := none, glbUrl := none }
    (by simp) rfl rfl

/- ===== C6 ===== -/

/-- C6: the bounding-volume height adjustment runs at most once per
spliced root: an `adjusted` root is skipped entirely; a root adjusted in
one pass has its translation shifted by `ground_height` minus the minimum
world-space corner height over its full descendant hierarchy and its
`adjusted` flag set in the same pass, so running the system again (on any
descendant data) changes nothing. -/
theorem s2p_c6 (s : PropRootState) (children rerun : List PropNode) :
    (s.prop.adjusted = true → adjust_generated_prop_height s children = s) ∧
    (∀ m, s.prop.adjusted = false → descendant_min_y children = some m →
      (adjust_generated_prop_height s children).translationY =
          s.translationY + (s.prop.ground_height - m) ∧
        (adjust_generated_prop_height s children).prop.adjusted = true ∧
        adjust_generated_prop_height (adjust_generated_prop_height s children) rerun =
          adjust_generated_prop_height s children) := by
  constructor
  · intro h
    unfold adjust_generated_prop_height
    rw [if_pos h]
  · intro m hadj hmin
    have hstep : adjust_generated_prop_height s children =
        { translationY := s.translationY + (s.prop.ground_height - m),
          prop := { ground_height := s.prop.ground_height, adjusted := true } } := by
      unfold adjust_generated_prop_height
      rw [if_neg (by simp [hadj]), hmin]
    rw [hstep]
    refine ⟨rfl, rfl, ?_⟩
    unfold adjust_generated_prop_height
    rw [if_pos rfl]

/-- C6 witness: a unit-cube mesh child at the origin under an unadjusted
root with ground height 5 shifts the root up by 6 and sets the flag; the
conclusion is obtained by instantiating the theorem. -/
theorem s2p_c6_witness :
    (adjust_generated_prop_height
        { translationY := 0, prop := { ground_height := 5, adjusted := false } }
        [PropNode.node
          (some { transformPoint := fun v => v, aabbCenter := { x := 0, y := 0, z := 0 },
                  aabbHalfExtents := { x := 1, y := 1, z := 1 } }) []]).translationY =
      0 + (5 - (-1)) := by
  have hmin : descendant_min_y
      [PropNode.node
        (some { transformPoint := fun v => v, aabbCenter := { x := 0, y := 0, z := 0 },
                aabbHalfExtents := { x := 1, y := 1, z := 1 } }) []] = some (-1) := by
    simp [descendant_min_y, scan_min_y, collect_meshes, mesh_corner_ys, corner_signs,
      min_y_fold]
  exact ((s2p_c6
    { translationY := 0, prop := { ground_height := 5, adjusted := false } }
    [PropNode.node
      (some { transformPoint := fun v => v, aabbCenter := { x := 0, y := 0, z := 0 },
              aabbHalfExtents := { x := 1, y := 1, z := 1 } }) []] []).2
    (-1) rfl hmin).1
